import Mathlib

/-!
Verification of the batch AI task runner (`src/app.py`).

Text is modelled as `List Char` (Python `str`).  The pipeline driver is
modelled as pure functions over an explicit session state
(`Option (List Char)`, the `st.session_state["out_table"]` slot), an
explicit request context (forwarded header, success of the remote
`execute` call), and an explicit trace of the remote calls each stage
issues.
-/

namespace AIQuery

/-- Model of Python `str.replace(old, new)` (replace every non-overlapping
occurrence, scanning left to right), written with an explicit fuel so that
the recursion is structural.  Each step consumes at least one character of
the scanned list when `old` is non-empty (and also when it is empty, since
the empty-pattern case is sent to the copy branch), so fuel `s.length` is
always sufficient and `replaceAll` below is exact for the non-empty
patterns the source applies it to (`"processed"`). -/
def replaceAllAux (old new : List Char) : Nat → List Char → List Char
  | 0, s => s
  | _ + 1, [] => []
  | fuel + 1, c :: rest =>
    if old.isPrefixOf (c :: rest) && !old.isEmpty then
      new ++ replaceAllAux old new fuel (List.drop (old.length - 1) rest)
    else
      c :: replaceAllAux old new fuel rest

/-- Python `s.replace(old, new)`: replace all occurrences. -/
def replaceAll (old new s : List Char) : List Char :=
  replaceAllAux old new s.length s

/-- Replacement of only the first (leftmost) occurrence of `old`,
used to state that the source's replace-all is equivalent to
first-occurrence replacement on the strings it is applied to. -/
def replaceFirst (old new : List Char) : List Char → List Char
  | [] => []
  | c :: rest =>
    if old.isPrefixOf (c :: rest) && !old.isEmpty then
      new ++ List.drop (old.length - 1) rest
    else
      c :: replaceFirst old new rest

/-- Number of positions of `s` at which the pattern `old` occurs. -/
def countOccs (old : List Char) : List Char → Nat
  | [] => 0
  | c :: rest =>
    countOccs old rest + (if old.isPrefixOf (c :: rest) then 1 else 0)

/-- Lowercase hexadecimal digit character for a nibble value. -/
def hexChar (n : Nat) : Char :=
  if n < 10 then Char.ofNat (48 + n) else Char.ofNat (87 + n)

/-- Model of Python `uuid.uuid4().hex` applied to the 128-bit random value
`u`: the 32 lowercase hexadecimal digits of `u`, most significant first. -/
def uuidHex (u : Nat) : List Char :=
  (List.range 32).map (fun i => hexChar (u / 16 ^ (31 - i) % 16))

/-- Source line 63: `job_id = uuid.uuid4().hex[:8]`. -/
def job_id (u : Nat) : List Char :=
  (uuidHex u).take 8

/-- Source line 64: `temp_table = f"user_upload_{job_id}"`. -/
def temp_table (id : List Char) : List Char :=
  "user_upload_".data ++ id

/-- Source line 65: `out_table = f"user_upload_processed_{job_id}"`. -/
def out_table (id : List Char) : List Char :=
  "user_upload_processed_".data ++ id

/-- Source line 69: `volume_path = f"@{VOLUME_NAME}/{temp_table}"`. -/
def volume_path (vol id : List Char) : List Char :=
  "@".data ++ vol ++ "/".data ++ temp_table id

/-- Source line 83: the value stored in `st.session_state["out_table"]`,
namely `f"tmp.{out_table}"`. -/
def stored_out_table (id : List Char) : List Char :=
  "tmp.".data ++ out_table id

/-- The three options of the task selector (source line 54). -/
inductive AITask where
  | sentimentAnalysis
  | topicClassification
  | summarization
deriving DecidableEq

/-- Source lines 55-59: `prompt_map`. -/
def prompt_map : AITask → List Char
  | .sentimentAnalysis =>
      "Determine the sentiment (positive/negative/neutral) of: \"\x7b\x7d\"".data
  | .topicClassification =>
      "Classify the topic of: \"\x7b\x7d\"".data
  | .summarization =>
      "Summarize the following text: \"\x7b\x7d\"".data

/-- Model of Python `repr` for strings containing no single quote, no
backslash and no non-printable characters: such a string is rendered
wrapped in single quotes.  All three prompt templates are of this form. -/
def pyRepr (s : List Char) : List Char :=
  Char.ofNat 39 :: s ++ [Char.ofNat 39]

/-- Source lines 74-81: the S1 inference statement `sql_stmt`,
an f-string over `out_table`, `volume_path`, `repr(prompt_map[task])`,
`text_col` and `temp_table`. -/
def sql_stmt (vol id : List Char) (task : AITask) (text_col : List Char) : List Char :=
  "\n    CREATE OR REPLACE TABLE tmp.".data ++ out_table id
    ++ " USING DELTA LOCATION '".data ++ volume_path vol id
    ++ "' AS\n    SELECT *, ai_query(\n        'databricks-meta-llama-3-3-70b-instruct',\n        format_string(".data
    ++ pyRepr (prompt_map task) ++ ", ".data ++ text_col
    ++ ")\n    ) AS ai_result\n    FROM tmp.".data ++ temp_table id
    ++ ";\n    ".data

/-- Source line 94: `eval_table = st.session_state["out_table"].replace("processed", "evaluated")`. -/
def eval_table (ptr : List Char) : List Char :=
  replaceAll ("processed".data) ("evaluated".data) ptr

/-- Source lines 95-105: the S3 evaluation statement `eval_sql`,
an f-string over `eval_table`, `VOLUME_NAME` and the current
`st.session_state["out_table"]` value `ptr`. -/
def eval_sql (vol ptr : List Char) : List Char :=
  "\n    CREATE OR REPLACE TABLE ".data ++ eval_table ptr
    ++ " USING DELTA LOCATION '@".data ++ vol ++ "/".data ++ eval_table ptr
    ++ "' AS\n    SELECT *, ai_query(\n        'databricks-meta-llama-3-3-70b-instruct',\n        format_string(\n            'Evaluate this result: \"%s\". Is it accurate? Respond Yes/No with a brief explanation.',\n            ai_result\n        )\n    ) AS evaluation\n    FROM ".data
    ++ ptr ++ ";\n    ".data

/-- One remote side effect issued by a pipeline stage: the Spark write of
the uploaded rows to the volume (S0), an `execute` on the
app-authenticated connection (S1/S3), or a read on the user-authenticated
connection (S2). -/
inductive RemoteCall where
  | sparkWrite (path table : List Char) (rows : List (List (List Char)))
  | appExecute (sqlText : List Char)
  | userRead (sqlText : List Char)
deriving DecidableEq

/-- Per-request context: the `X-Forwarded-Access-Token` header (if
present) and whether the remote `execute` on the app connection succeeds
or raises. -/
structure AppContext where
  forwarded_access_token : Option (List Char)
  app_exec_ok : Bool

/-- Source lines 62-84, the Submit Batch Job handler: mint `job_id` from
the random value `u`, write the uploaded rows `df` to the volume under the
raw name (S0), issue `sql_stmt` on the app connection (S1), and — only if
that `execute` returns rather than raises — store `f"tmp.{out_table}"` in
the session slot.  Returns the new session slot and the calls issued. -/
def submit_batch_job (ctx : AppContext) (vol : List Char) (u : Nat) (task : AITask)
    (text_col : List Char) (df : List (List (List Char)))
    (out_ptr : Option (List Char)) : Option (List Char) × List RemoteCall :=
  let id := job_id u
  let calls := [RemoteCall.sparkWrite (volume_path vol id) ("tmp.".data ++ temp_table id) df,
                RemoteCall.appExecute (sql_stmt vol id task text_col)]
  if ctx.app_exec_ok then (some (stored_out_table id), calls) else (out_ptr, calls)

/-- Outcome of the Fetch Results action. -/
inductive FetchOutcome where
  | unavailable
  | authError
  | fetched (sqlText : List Char)
deriving DecidableEq

/-- Source lines 87-89, the Fetch Results handler: guarded by
`"out_table" in st.session_state` (the button is not even offered when the
slot is unset); `get_user_conn` stops with an error when the
`X-Forwarded-Access-Token` header is absent, before any read; otherwise a
single read of the pointed-to table is issued on the user connection. -/
def fetch_results (ctx : AppContext) (out_ptr : Option (List Char)) :
    FetchOutcome × List RemoteCall :=
  match out_ptr with
  | none => (.unavailable, [])
  | some t =>
    match ctx.forwarded_access_token with
    | none => (.authError, [])
    | some _ =>
      (.fetched ("SELECT * FROM ".data ++ t),
       [RemoteCall.userRead ("SELECT * FROM ".data ++ t)])

/-- Source lines 93-107, the Run Evaluation handler: guarded by
`"out_table" in st.session_state`; reads the current session slot value,
derives `eval_table` from it and issues `eval_sql` on the
app-authenticated connection. -/
def run_evaluation (ctx : AppContext) (vol : List Char) (out_ptr : Option (List Char)) :
    List RemoteCall :=
  match out_ptr, ctx with
  | none, _ => []
  | some ptr, _ => [RemoteCall.appExecute (eval_sql vol ptr)]

/-- The environment values the application itself reads (source lines
11-16): `DATABRICKS_SQL_ENDPOINT` and `DATA_VOLUME_PATH`.  Host and
credentials are read by the external `databricks.sdk.core.Config`
collaborator and are not checked by this code. -/
structure EnvConfig where
  databricks_sql_endpoint : Option (List Char)
  data_volume_path : Option (List Char)

/-- Source lines 11-16, the startup configuration phase:
`HTTP_PATH = os.environ.get("DATABRICKS_SQL_ENDPOINT")` with no presence
check, then `VOLUME_NAME = os.environ.get("DATA_VOLUME_PATH")` with
`st.error(...)`/`st.stop()` when absent.  No remote call is issued in this
phase (second component of the result).  On success the pair
`(HTTP_PATH, VOLUME_NAME)` is available to the rest of the app, with
`HTTP_PATH` possibly still unset. -/
def startup (e : EnvConfig) :
    Except (List Char) (Option (List Char) × List Char) × List RemoteCall :=
  match e.data_volume_path with
  | none =>
      (.error ("Please configure the DATA_VOLUME_PATH env var to your UC volume, e.g. 'catalog.schema.volume_name'.".data), [])
  | some v => (.ok (e.databricks_sql_endpoint, v), [])

/-- The set of remote table names a single job produces: raw, processed,
and the evaluated name derived from the stored pointer. -/
def job_tables (id : List Char) : List (List Char) :=
  [temp_table id, out_table id, eval_table (stored_out_table id)]

/-! ## Helper lemmas -/

theorem isPrefixOf_eq_false_of_length_lt {old s : List Char} (h : s.length < old.length) :
    old.isPrefixOf s = false := by
  cases hp : old.isPrefixOf s with
  | false => rfl
  | true =>
    have := List.IsPrefix.length_le (List.isPrefixOf_iff_prefix.mp hp)
    omega

theorem replaceAllAux_of_length_lt (old new : List Char) (fuel : Nat) :
    ∀ s : List Char, s.length < old.length → replaceAllAux old new fuel s = s := by
  induction fuel with
  | zero => intro s _; rfl
  | succ fuel ih =>
    intro s hs
    cases s with
    | nil => rfl
    | cons c rest =>
      rw [replaceAllAux, isPrefixOf_eq_false_of_length_lt hs]
      simp only [Bool.false_and, Bool.false_eq_true, if_false]
      rw [ih rest (by simp at hs ⊢; omega)]

theorem countOccs_of_length_lt (old : List Char) :
    ∀ s : List Char, s.length < old.length → countOccs old s = 0 := by
  intro s
  induction s with
  | nil => intro _; rfl
  | cons c rest ih =>
    intro hs
    rw [countOccs, isPrefixOf_eq_false_of_length_lt hs]
    simp only [Bool.false_eq_true, if_false, Nat.add_zero]
    exact ih (by simp at hs ⊢; omega)

/-- Replacing only the first occurrence of `"processed"` in the stored
pointer yields the evaluated name; this holds for an arbitrary id because
the scan is fully determined by the concrete prefix. -/
theorem replaceFirst_stored (id : List Char) :
    replaceFirst ("processed".data) ("evaluated".data) (stored_out_table id)
      = "tmp.user_upload_evaluated_".data ++ id := rfl

/-- Occurrence count of `"processed"` in the stored pointer telescopes to
one occurrence in the concrete prefix plus the occurrences inside the id. -/
theorem countOccs_stored_succ (id : List Char) :
    countOccs ("processed".data) (stored_out_table id)
      = Nat.succ (countOccs ("processed".data) id) := rfl

/-- Python replace-all of `"processed"` by `"evaluated"` on the stored
pointer, for any 8-character id: the single occurrence in the concrete
prefix is replaced and the id is too short to hold another. -/
theorem replaceAll_stored (id : List Char) (h : id.length = 8) :
    replaceAll ("processed".data) ("evaluated".data) (stored_out_table id)
      = "tmp.user_upload_evaluated_".data ++ id := by
  have hl : (stored_out_table id).length = 34 := by
    simp [stored_out_table, out_table, h]
  show replaceAllAux ("processed".data) ("evaluated".data)
      (stored_out_table id).length (stored_out_table id) = _
  rw [hl]
  have h16 : replaceAllAux ("processed".data) ("evaluated".data) 16 id = id :=
    replaceAllAux_of_length_lt _ _ _ _ (by rw [h]; decide)
  calc replaceAllAux ("processed".data) ("evaluated".data) 34 (stored_out_table id)
      = "tmp.user_upload_evaluated_".data
          ++ replaceAllAux ("processed".data) ("evaluated".data) 16 id := rfl
    _ = "tmp.user_upload_evaluated_".data ++ id := by rw [h16]

theorem uuidHex_length (u : Nat) : (uuidHex u).length = 32 := by
  simp [uuidHex]

theorem job_id_length (u : Nat) : (job_id u).length = 8 := by
  simp [job_id, uuidHex]

theorem hexChar_mem (n : Nat) (h : n < 16) : hexChar n ∈ ("0123456789abcdef".data) := by
  interval_cases n <;> decide

theorem job_id_hex (u : Nat) : ∀ c ∈ job_id u, c ∈ ("0123456789abcdef".data) := by
  intro c hc
  simp only [job_id, uuidHex] at hc
  have := List.mem_of_mem_take hc
  simp only [List.mem_map, List.mem_range] at this
  obtain ⟨i, _, hi⟩ := this
  rw [← hi]
  exact hexChar_mem _ (Nat.mod_lt _ (by decide))

theorem append_ne_of_length_ne {p q a b : List Char}
    (h : p.length + a.length ≠ q.length + b.length) : p ++ a ≠ q ++ b := by
  intro he
  exact h (by rw [← List.length_append, ← List.length_append, he])

/-! ## Claim theorems -/

/-- C1: for every job id minted by the generator, the raw table name is
`"user_upload_" + id`, the processed table name is
`"user_upload_processed_" + id`, and the evaluated name equals the stored
schema-qualified processed name with the substring `"processed"` replaced
by `"evaluated"` exactly once: the stored pointer holds exactly one
occurrence of `"processed"`, and the code's replace-all coincides with
first-occurrence replacement on it. -/
theorem c1_table_name_templates (u : Nat) :
    temp_table (job_id u) = "user_upload_".data ++ job_id u
    ∧ out_table (job_id u) = "user_upload_processed_".data ++ job_id u
    ∧ countOccs ("processed".data) (stored_out_table (job_id u)) = 1
    ∧ eval_table (stored_out_table (job_id u))
        = replaceFirst ("processed".data) ("evaluated".data)
            (stored_out_table (job_id u)) := by
  refine ⟨rfl, rfl, ?_, ?_⟩
  · rw [countOccs_stored_succ,
      countOccs_of_length_lt _ _ (by rw [job_id_length]; decide)]
  · show replaceAll ("processed".data) ("evaluated".data) (stored_out_table (job_id u)) = _
    rw [replaceAll_stored _ (job_id_length u), replaceFirst_stored]

/-- C2: for the "Summarization" task and a chosen column, the constructed
S1 SQL embeds the literal template `Summarize the following text: "{}"`
together with the column reference as the two arguments of the remote
engine's `format_string` primitive; interpolating the template's single
placeholder with the row value `The cat sat.` yields the intended per-row
prompt `Summarize the following text: "The cat sat."`; and the SQL text
handed to `execute` is the same for any two uploaded data frames, i.e. no
column values are interpolated locally into the SQL text. -/
theorem c2_summarization_prompt_embedding (ctx : AppContext) (vol text_col : List Char)
    (u : Nat) (df : List (List (List Char))) (out_ptr : Option (List Char)) :
    List.IsInfix
      ("format_string('Summarize the following text: \"\x7b\x7d\"', ".data
        ++ text_col ++ ")".data)
      (sql_stmt vol (job_id u) .summarization text_col)
    ∧ countOccs ("\x7b\x7d".data) (prompt_map .summarization) = 1
    ∧ replaceFirst ("\x7b\x7d".data) ("The cat sat.".data) (prompt_map .summarization)
        = "Summarize the following text: \"The cat sat.\"".data
    ∧ (submit_batch_job ctx vol u .summarization text_col df out_ptr).2
        = [RemoteCall.sparkWrite (volume_path vol (job_id u))
             ("tmp.".data ++ temp_table (job_id u)) df,
           RemoteCall.appExecute (sql_stmt vol (job_id u) .summarization text_col)] := by
  refine ⟨⟨"\n    CREATE OR REPLACE TABLE tmp.".data ++ out_table (job_id u)
    ++ " USING DELTA LOCATION '".data ++ volume_path vol (job_id u)
    ++ "' AS\n    SELECT *, ai_query(\n        'databricks-meta-llama-3-3-70b-instruct',\n        ".data,
    "\n    ) AS ai_result\n    FROM tmp.".data ++ temp_table (job_id u) ++ ";\n    ".data,
    ?_⟩, rfl, rfl, ?_⟩
  · simp only [sql_stmt, List.append_assoc]
    rfl
  · rcases ctx with ⟨tok, ok⟩
    cases ok <;> rfl

/-- C3: when stage S1's remote `execute` raises, the assignment to the
session slot `"out_table"` is never reached, so starting from an unset
slot the slot stays unset; and while the slot is unset the Fetch Results
action is unavailable and issues zero remote calls of any kind, rather
than performing a failing remote read. -/
theorem c3_s1_failure_leaves_pointer_unset (tok tok2 : Option (List Char)) (ok2 : Bool)
    (vol text_col : List Char) (u : Nat) (task : AITask) (df : List (List (List Char))) :
    (submit_batch_job ⟨tok, false⟩ vol u task text_col df none).1 = none
    ∧ fetch_results ⟨tok2, ok2⟩ none = (.unavailable, []) :=
  ⟨rfl, rfl⟩

/-- C4: when the `X-Forwarded-Access-Token` header is absent, Fetch
Results stops with an authorization error and issues zero remote calls;
and the write-side stages S0/S1 (submit) and S3 (evaluation), which run on
the app-authenticated connection, behave identically for any two values of
the header. -/
theorem c4_missing_header_auth_error (ok : Bool) (t vol text_col : List Char) (u : Nat)
    (task : AITask) (df : List (List (List Char))) (out_ptr : Option (List Char))
    (tokA tokB : Option (List Char)) :
    fetch_results ⟨none, ok⟩ (some t) = (.authError, [])
    ∧ submit_batch_job ⟨tokA, ok⟩ vol u task text_col df out_ptr
        = submit_batch_job ⟨tokB, ok⟩ vol u task text_col df out_ptr
    ∧ run_evaluation ⟨tokA, ok⟩ vol out_ptr = run_evaluation ⟨tokB, ok⟩ vol out_ptr := by
  refine ⟨rfl, rfl, ?_⟩
  cases out_ptr <;> rfl

/-- C5 counterexample: with `DATA_VOLUME_PATH` set but
`DATABRICKS_SQL_ENDPOINT` absent, startup succeeds with no error and the
endpoint silently remains unset, contradicting the claim that the absence
of every required configuration value (the SQL endpoint path among them)
is a fatal operator-visible error. -/
theorem c5_counterexample_endpoint_unchecked :
    startup ⟨none, some ("catalog.schema.volume_name".data)⟩
      = (.ok (none, "catalog.schema.volume_name".data), []) := rfl

/-- C5 (amended): of the configuration values this code reads itself,
only the durable-storage volume identifier (`DATA_VOLUME_PATH`) is
checked: its absence is a fatal operator-visible error raised before any
remote call, while the SQL endpoint path (`DATABRICKS_SQL_ENDPOINT`) is
read without a presence check and its absence silently yields an unset
value; host and credentials are delegated to the external `Config`
provider and are not checked at startup. -/
theorem c5_amended_volume_only_checked (e : EnvConfig) :
    (startup e).2 = []
    ∧ (e.data_volume_path = none →
        (startup e).1 = .error ("Please configure the DATA_VOLUME_PATH env var to your UC volume, e.g. 'catalog.schema.volume_name'.".data))
    ∧ (∀ v, e.data_volume_path = some v →
        (startup e).1 = .ok (e.databricks_sql_endpoint, v)) := by
  rcases e with ⟨ep, vp⟩
  cases vp with
  | none =>
    refine ⟨rfl, fun _ => rfl, ?_⟩
    intro v hv
    exact Option.noConfusion hv
  | some v0 =>
    refine ⟨rfl, ?_, ?_⟩
    · intro h
      exact Option.noConfusion h
    · intro v hv
      obtain rfl : v0 = v := Option.some.inj hv
      rfl

theorem c5_amended_witness :
    ((⟨some ("/sql/1.0/warehouses/abc".data), none⟩ : EnvConfig).data_volume_path = none)
    ∧ (startup ⟨some ("/sql/1.0/warehouses/abc".data), none⟩).1
        = .error ("Please configure the DATA_VOLUME_PATH env var to your UC volume, e.g. 'catalog.schema.volume_name'.".data)
    ∧ (startup ⟨some ("/sql/1.0/warehouses/abc".data), none⟩).2 = [] :=
  ⟨rfl, (c5_amended_volume_only_checked _).2.1 rfl, (c5_amended_volume_only_checked _).1⟩

set_option maxRecDepth 8192 in
/-- C6: the evaluation stage reads the session slot at invocation time:
invoked with current pointer `p` it issues exactly one `execute` whose
statement's FROM clause references exactly `p` and whose created table is
the evaluated name derived from that same `p` — the statement is a
function of the current pointer value only, never of an earlier cached
value. -/
theorem c6_evaluation_uses_current_pointer (ctx : AppContext) (vol p : List Char) :
    run_evaluation ctx vol (some p) = [RemoteCall.appExecute (eval_sql vol p)]
    ∧ List.IsInfix ("FROM ".data ++ p ++ ";".data) (eval_sql vol p)
    ∧ List.IsInfix
        ("CREATE OR REPLACE TABLE ".data ++ eval_table p ++ " USING DELTA".data)
        (eval_sql vol p) := by
  refine ⟨rfl,
    ⟨"\n    CREATE OR REPLACE TABLE ".data ++ eval_table p
      ++ " USING DELTA LOCATION '@".data ++ vol ++ "/".data ++ eval_table p
      ++ "' AS\n    SELECT *, ai_query(\n        'databricks-meta-llama-3-3-70b-instruct',\n        format_string(\n            'Evaluate this result: \"%s\". Is it accurate? Respond Yes/No with a brief explanation.',\n            ai_result\n        )\n    ) AS evaluation\n    ".data,
     "\n    ".data, ?_⟩,
    ⟨"\n    ".data,
     " LOCATION '@".data ++ vol ++ "/".data ++ eval_table p
      ++ "' AS\n    SELECT *, ai_query(\n        'databricks-meta-llama-3-3-70b-instruct',\n        format_string(\n            'Evaluate this result: \"%s\". Is it accurate? Respond Yes/No with a brief explanation.',\n            ai_result\n        )\n    ) AS evaluation\n    FROM ".data
      ++ p ++ ";\n    ".data, ?_⟩⟩
  · simp only [eval_sql, List.append_assoc]
    rfl
  · simp only [eval_sql, List.append_assoc]
    rfl

/-- C7: every generated job identifier is obtained by truncating to its
first 8 characters the 32-character lowercase-hexadecimal form of the
128-bit random value; it has length 8 and consists only of lowercase
hexadecimal characters, and the generator is a total function, never
failing. -/
theorem c7_job_id_format (u : Nat) (_h : u < 2 ^ 128) :
    (uuidHex u).length = 32
    ∧ job_id u = (uuidHex u).take 8
    ∧ (job_id u).length = 8
    ∧ ∀ c ∈ job_id u, c ∈ ("0123456789abcdef".data) :=
  ⟨uuidHex_length u, rfl, job_id_length u, job_id_hex u⟩

theorem c7_witness :
    (0 : Nat) < 2 ^ 128
    ∧ ((uuidHex 0).length = 32
        ∧ job_id 0 = (uuidHex 0).take 8
        ∧ (job_id 0).length = 8
        ∧ ∀ c ∈ job_id 0, c ∈ ("0123456789abcdef".data)) :=
  ⟨by decide, c7_job_id_format 0 (by decide)⟩

/-- C8: two submissions that mint distinct 8-character job ids produce
disjoint table-name sets: none of the raw, processed or evaluated names of
one job equals any of the three names of the other. -/
theorem c8_distinct_ids_disjoint_tables (a b : List Char)
    (ha : a.length = 8) (hb : b.length = 8) (hab : a ≠ b) :
    ∀ x ∈ job_tables a, ∀ y ∈ job_tables b, x ≠ y := by
  have ea : eval_table (stored_out_table a) = "tmp.user_upload_evaluated_".data ++ a :=
    replaceAll_stored a ha
  have eb : eval_table (stored_out_table b) = "tmp.user_upload_evaluated_".data ++ b :=
    replaceAll_stored b hb
  intro x hx y hy
  simp only [job_tables, List.mem_cons, List.not_mem_nil, or_false] at hx hy
  rcases hx with hx | hx | hx <;> rcases hy with hy | hy | hy <;> subst hx <;> subst hy <;>
    simp only [ea, eb, temp_table, out_table] <;>
    first
      | exact fun h => hab (List.append_cancel_left h)
      | (apply append_ne_of_length_ne; rw [ha, hb]; decide)

theorem c8_witness :
    (("0a1b2c3d".data).length = 8) ∧ (("deadbeef".data).length = 8)
    ∧ ("0a1b2c3d".data ≠ "deadbeef".data)
    ∧ (∀ x ∈ job_tables ("0a1b2c3d".data), ∀ y ∈ job_tables ("deadbeef".data), x ≠ y) :=
  ⟨by decide, by decide, by decide,
   c8_distinct_ids_disjoint_tables _ _ (by decide) (by decide) (by decide)⟩

/-- C9 (implicit): for every id drawn from the 8-character lowercase-hex
token space, the stored pointer `"tmp.user_upload_processed_" + id`
contains exactly one occurrence of `"processed"`, so the replace-all used
to derive the evaluated name coincides with first-occurrence replacement
and always yields `"tmp.user_upload_evaluated_" + id`; the latent
fragility of the substring convention is unreachable for ids of this
form. -/
theorem c9_replace_convention_safe (id : List Char) (h8 : id.length = 8)
    (_hhex : ∀ c ∈ id, c ∈ ("0123456789abcdef".data)) :
    countOccs ("processed".data) (stored_out_table id) = 1
    ∧ replaceAll ("processed".data) ("evaluated".data) (stored_out_table id)
        = replaceFirst ("processed".data) ("evaluated".data) (stored_out_table id)
    ∧ replaceAll ("processed".data) ("evaluated".data) (stored_out_table id)
        = "tmp.user_upload_evaluated_".data ++ id := by
  refine ⟨?_, ?_, replaceAll_stored id h8⟩
  · rw [countOccs_stored_succ, countOccs_of_length_lt _ _ (by rw [h8]; decide)]
  · rw [replaceAll_stored id h8, replaceFirst_stored]

theorem c9_witness :
    (("0a1b2c3d".data).length = 8)
    ∧ (∀ c ∈ ("0a1b2c3d".data), c ∈ ("0123456789abcdef".data))
    ∧ (countOccs ("processed".data) (stored_out_table ("0a1b2c3d".data)) = 1
        ∧ replaceAll ("processed".data) ("evaluated".data)
            (stored_out_table ("0a1b2c3d".data))
          = replaceFirst ("processed".data) ("evaluated".data)
              (stored_out_table ("0a1b2c3d".data))
        ∧ replaceAll ("processed".data) ("evaluated".data)
            (stored_out_table ("0a1b2c3d".data))
          = "tmp.user_upload_evaluated_".data ++ "0a1b2c3d".data) :=
  ⟨by decide, by decide,
   c9_replace_convention_safe ("0a1b2c3d".data) (by decide) (by decide)⟩

set_option maxRecDepth 8192 in
/-- C10 (implicit): the S1 statement declares the processed table's
storage LOCATION to be the raw table's volume path
`"@" + VOLUME_NAME + "/user_upload_" + id`, while the S3 statement
declares the evaluated table's LOCATION as
`"@" + VOLUME_NAME + "/" +` the schema-qualified evaluated name
(with its `"tmp."` prefix); the two stages derive their locations by
different rules and the resulting paths differ. -/
theorem c10_location_rules_differ (vol text_col : List Char) (u : Nat) (task : AITask) :
    volume_path vol (job_id u) = "@".data ++ vol ++ "/user_upload_".data ++ job_id u
    ∧ List.IsInfix
        ("LOCATION '".data ++ volume_path vol (job_id u) ++ "'".data)
        (sql_stmt vol (job_id u) task text_col)
    ∧ eval_table (stored_out_table (job_id u))
        = "tmp.user_upload_evaluated_".data ++ job_id u
    ∧ List.IsInfix
        ("LOCATION '@".data ++ vol ++ "/".data
          ++ eval_table (stored_out_table (job_id u)) ++ "'".data)
        (eval_sql vol (stored_out_table (job_id u)))
    ∧ "@".data ++ vol ++ "/".data ++ temp_table (job_id u)
        ≠ "@".data ++ vol ++ "/".data ++ eval_table (stored_out_table (job_id u)) := by
  have he : eval_table (stored_out_table (job_id u))
      = "tmp.user_upload_evaluated_".data ++ job_id u :=
    replaceAll_stored _ (job_id_length u)
  refine ⟨?_, ?_, he, ?_, ?_⟩
  · simp only [volume_path, temp_table, List.append_assoc]
    rfl
  · refine ⟨"\n    CREATE OR REPLACE TABLE tmp.".data ++ out_table (job_id u)
      ++ " USING DELTA ".data,
      " AS\n    SELECT *, ai_query(\n        'databricks-meta-llama-3-3-70b-instruct',\n        format_string(".data
        ++ pyRepr (prompt_map task) ++ ", ".data ++ text_col
        ++ ")\n    ) AS ai_result\n    FROM tmp.".data ++ temp_table (job_id u)
        ++ ";\n    ".data, ?_⟩
    simp only [sql_stmt, List.append_assoc]
    rfl
  · refine ⟨"\n    CREATE OR REPLACE TABLE ".data
      ++ eval_table (stored_out_table (job_id u)) ++ " USING DELTA ".data,
      " AS\n    SELECT *, ai_query(\n        'databricks-meta-llama-3-3-70b-instruct',\n        format_string(\n            'Evaluate this result: \"%s\". Is it accurate? Respond Yes/No with a brief explanation.',\n            ai_result\n        )\n    ) AS evaluation\n    FROM ".data
        ++ stored_out_table (job_id u) ++ ";\n    ".data, ?_⟩
    simp only [eval_sql, List.append_assoc]
    rfl
  · rw [he]
    intro hcontra
    have hlen := congrArg List.length hcontra
    simp only [List.length_append, temp_table, job_id_length,
      show ("user_upload_".data).length = 12 from rfl,
      show ("tmp.user_upload_evaluated_".data).length = 26 from rfl] at hlen
    omega

end AIQuery
